import Mathlib

/-!
Verification development for the StratoDem `strato_query` request-delivery core
(`strato_query/api_query.py`).

The network is modelled by oracles (test doubles): an `Attempt` stream maps the
index of a POST attempt to either a received HTTP response or a transient
transport failure (connection error / timeout).  Machine-level details that no
property depends on (actual sleeping, the HTTP wire encoding, pandas' internal
table layout) are abstracted to pure data: sleeps are counted, and a
`pandas.DataFrame` is recorded as the JSON value passed to its constructor
(the tabular decoder is an external boundary of the core).
-/

/-- Minimal JSON value model for request payloads and response bodies. -/
inductive Json where
  | null : Json
  | bool (b : Bool) : Json
  | num (n : Int) : Json
  | str (s : String) : Json
  | arr (elems : List Json) : Json
  | obj (fields : List (String × Json)) : Json


/-- Lookup of a field in a JSON object, `none` on a non-object or missing key
(models a Python `KeyError` / `TypeError` as a fallible access). -/
def jsonGet (j : Json) (k : String) : Option Json :=
  match j with
  | .obj fields => fields.lookup k
  | _ => none

/-- First element of a JSON array, `none` otherwise (models `data[0]`,
where Python would raise `IndexError` / `TypeError`). -/
def jsonFirst (j : Json) : Option Json :=
  match j with
  | .arr (x :: _) => some x
  | _ => none

/-- The wire payload of a query POST: the bearer token plus the query payload
(`dict(token=..., query=...)` or `dict(token=..., queries=...)`). -/
structure Envelope (π : Type) where
  token : String
  payload : π


/-- The fixed mask written over the token in failure contexts
(`{**json_dict, 'token': '**********'}`). -/
def maskString : String := "**********"

/-- Redacted copy of an envelope: token replaced by the fixed mask. -/
def redact {π : Type} (e : Envelope π) : Envelope π :=
  { e with token := maskString }

/-- One HTTP response as observed by `_submit_post_request`: the status code,
the raw content (`r.content`, used in non-200 errors) and the parsed JSON
body's `success` and `data` fields (read only on status 200). -/
structure HttpResponse (δ : Type) where
  status_code : Nat
  content : String
  success : Bool
  data : δ


/-- Outcome of one POST attempt: a response was received, or the transport
raised a transient failure (`requests.exceptions.ConnectionError` or
`requests.Timeout`). -/
inductive Attempt (δ : Type) where
  | response (r : HttpResponse δ) : Attempt δ
  | transient : Attempt δ


/-- The decoded JSON body returned on success (`json_data`). -/
structure ResponseBody (δ : Type) where
  success : Bool
  data : δ


/-- Fixed message raised on HTTP status 520. -/
def msg520 : String :=
  "Query has timed out. The most likely cause is a query calling for " ++
  "too much data at once. Please check the filters and avoid calling for " ++
  "unnecessary data."

/-- Fixed message raised when the transient-retry budget is exhausted. -/
def msgRetry : String :=
  "Query has timed out. The most likely cause is a query calling for " ++
  "too much data at once. Please check the filters and avoid calling for " ++
  "unnecessary data. Also possible are that the timeout value may have been set " ++
  "too low, or a network error could be preventing proper communication with " ++
  "the API server."

/-- The classified failures of `_submit_post_request`
(each an `APIQueryFailedException` with the listed arguments). -/
inductive QueryError (π δ : Type) where
  | timeout520 (msg : String) (ctx : Envelope π) : QueryError π δ
  | httpError (code : Nat) (content : String) (ctx : Envelope π) : QueryError π δ
  | bodyFailure (body : ResponseBody δ) : QueryError π δ
  | retryTimeout (msg : String) (ctx : Envelope π) : QueryError π δ


/-- The request context attached to a failure, when the failure carries one
(the `success = false` body failure attaches the response body instead). -/
def errorContext {π δ : Type} : QueryError π δ → Option (Envelope π)
  | .timeout520 _ ctx => some ctx
  | .httpError _ _ ctx => some ctx
  | .bodyFailure _ => none
  | .retryTimeout _ ctx => some ctx

/-- Classification of a received HTTP response by `_submit_post_request`:
non-200 raises (520 with the fixed timeout message, anything else with the
status code and raw content, both with the redacted request attached); a 200
body with `success = false` raises with the body; otherwise the body is
returned.  The second component is the one POST attempt this response cost. -/
def classify_response {π δ : Type} (env : Envelope π) (r : HttpResponse δ) :
    Except (QueryError π δ) (ResponseBody δ) × Nat :=
  if r.status_code ≠ 200 then
    if r.status_code = 520 then
      (.error (.timeout520 msg520 (redact env)), 1)
    else
      (.error (.httpError r.status_code r.content (redact env)), 1)
  else if ¬ r.success then
    (.error (.bodyFailure ⟨r.success, r.data⟩), 1)
  else
    (.ok ⟨r.success, r.data⟩, 1)

/-- The retry loop of `_submit_post_request`, from loop index `retryNum` with
`retriesLeft = MAX_RETRIES - retryNum` retries remaining (so the source test
`retry_num >= MAX_RETRIES` is `retriesLeft = 0`).  Each iteration performs one
POST attempt: a received response is classified; a transient failure raises
the fixed retry-timeout message when no retries remain and otherwise sleeps
`0.5 * (1 + retry_num)` seconds (not observable in the returned data) and
retries.  Returns the outcome together with the number of POST attempts
made. -/
def submit_post_request_from {π δ : Type} (env : Envelope π) (oracle : Nat → Attempt δ) :
    Nat → Nat → Except (QueryError π δ) (ResponseBody δ) × Nat
  | retryNum, 0 =>
    match oracle retryNum with
    | .response r => classify_response env r
    | .transient => (.error (.retryTimeout msgRetry (redact env)), 1)
  | retryNum, left + 1 =>
    match oracle retryNum with
    | .response r => classify_response env r
    | .transient =>
      let out := submit_post_request_from env oracle (retryNum + 1) left
      (out.1, out.2 + 1)

/-- `_submit_post_request`: run the retry loop from attempt 0 with
`maxRetries` (the constant `cc.MAX_RETRIES`) retries available. -/
def submit_post_request {π δ : Type} (env : Envelope π) (oracle : Nat → Attempt δ)
    (maxRetries : Nat) : Except (QueryError π δ) (ResponseBody δ) × Nat :=
  submit_post_request_from env oracle 0 maxRetries

example :
    submit_post_request (δ := Json) ⟨"tok", Json.null⟩
      (fun _ => .response ⟨200, "", true, Json.null⟩) 3
      = (.ok ⟨true, Json.null⟩, 1) := rfl

example :
    submit_post_request (δ := Json) ⟨"tok", Json.null⟩ (fun _ => .transient) 3
      = (.error (.retryTimeout msgRetry ⟨maskString, Json.null⟩), 4) := rfl

/-- A `pandas.DataFrame`, recorded as the JSON value passed to its
constructor.  The subsequent column-name uppercasing
(`df_.columns = [c.upper() for c in df_.columns]`) and pandas' internal layout
are part of the external tabular-decoder boundary and are not further
modelled; every property below depends only on which value is decoded. -/
structure PandasDF where
  source : Json


/-- `pandas.DataFrame(v)` followed by the uppercasing of column names. -/
def decodeDF (v : Json) : PandasDF := ⟨v⟩

/-- `SDAPIQuery.query_api_json`: submit the single-query envelope
`dict(token=..., query=query_params.to_api_struct())` and return
`json_data['data'][0]`.  The serialized query `q` plays the role of
`query_params.to_api_struct()`; the returned pair also carries the number of
POST attempts made. -/
def query_api_json (token : String) (q : Json) (oracle : Nat → Attempt Json)
    (maxRetries : Nat) : Except (QueryError Json Json) (Option Json) × Nat :=
  let run := submit_post_request ⟨token, q⟩ oracle maxRetries
  match run.1 with
  | .error e => (.error e, run.2)
  | .ok body => (.ok (jsonFirst body.data), run.2)

/-- `SDAPIQuery.query_api_df`: submit the single-query envelope and build a
DataFrame from `json_data['data']` (the whole `data` value, not an element of
it). -/
def query_api_df (token : String) (q : Json) (oracle : Nat → Attempt Json)
    (maxRetries : Nat) : Except (QueryError Json Json) PandasDF × Nat :=
  let run := submit_post_request ⟨token, q⟩ oracle maxRetries
  match run.1 with
  | .error e => (.error e, run.2)
  | .ok body => (.ok (decodeDF body.data), run.2)

/-- Keys of an association-list dictionary, in iteration order. -/
def dictKeys {α : Type} (d : List (String × α)) : List String :=
  d.map Prod.fst

/-- Python dict assignment `d[k] = v`: update in place when the key exists
(keeping its position), otherwise append at the end. -/
def dictInsert {α : Type} (d : List (String × α)) (k : String) (v : α) :
    List (String × α) :=
  if k ∈ dictKeys d then
    d.map (fun p => if p.1 = k then (k, v) else p)
  else d ++ [(k, v)]

/-- Contiguous chunks of at most `n` elements, mirroring the slicing loop
`for idx_chunk in range(0, len(keys_list), chunksize):
keys_list[idx_chunk:idx_chunk + chunksize]`.  Written with the list length as
structural fuel; `chunkList` below supplies `xs.length`, which always
suffices for `n ≥ 1` (and the source asserts `chunksize > 0`). -/
def chunkListGo {α : Type} (n : Nat) : Nat → List α → List (List α)
  | _, [] => []
  | 0, _ :: _ => []
  | fuel + 1, x :: xs => (x :: xs).take n :: chunkListGo n fuel (xs.drop (n - 1))

/-- Contiguous chunks of at most `n` elements of `xs`, in order. -/
def chunkList {α : Type} (n : Nat) (xs : List α) : List (List α) :=
  chunkListGo n xs.length xs

example : chunkList 2 [1, 2, 3, 4, 5] = [[1, 2], [3, 4], [5]] := rfl

/-- Failures of `query_api_multiple`: the leading `chunksize` assertion, or a
propagated failure of `_submit_post_request` for some chunk. -/
inductive MultiFailure where
  | usageChunksize : MultiFailure
  | api (e : QueryError (List (String × Json)) (List (String × Json))) : MultiFailure


/-- Observable outcome of one `query_api_multiple` call: the merged result
dict (or the first failure), the total number of POST attempts, and the
number of inter-chunk sleeps. -/
structure MultiOut where
  result : Except MultiFailure (List (String × PandasDF))
  posts : Nat
  sleeps : Nat


/-- The chunk loop of `query_api_multiple`.  Each chunk is a contiguous slice
of the input dict's (key, query) pairs, so the envelope
`{k: queries[k].to_api_struct() for k in keys_chunk}` is the chunk with each
query serialized (dict keys are unique, so slicing the key list and looking
keys up again is the same as slicing the pairs).  The per-chunk response body
`json_data['data']` is an object whose items are merged into the accumulating
dict; the optional `time.sleep(time_between_chunks)` runs only when more
chunks remain. -/
def query_api_multiple_go (token : String) (toStruct : Json → Json)
    (oracle : List String → Nat → Attempt (List (String × Json)))
    (maxRetries : Nat) (sleepBetween : Bool) :
    List (List (String × Json)) → List (String × PandasDF) → MultiOut
  | [], acc => ⟨.ok acc, 0, 0⟩
  | chunk :: rest, acc =>
    let ks := dictKeys chunk
    let run := submit_post_request ⟨token, chunk.map (fun kq => (kq.1, toStruct kq.2))⟩
      (oracle ks) maxRetries
    match run.1 with
    | .error e => ⟨.error (.api e), run.2, 0⟩
    | .ok body =>
      let acc2 := body.data.foldl (fun a kv => dictInsert a kv.1 (decodeDF kv.2)) acc
      let out := query_api_multiple_go token toStruct oracle maxRetries sleepBetween rest acc2
      ⟨out.result, run.2 + out.posts,
        (if sleepBetween && !rest.isEmpty then 1 else 0) + out.sleeps⟩

/-- `SDAPIQuery.query_api_multiple`: assert `chunksize > 0`, slice the keys
into contiguous chunks, submit one envelope per chunk and merge the keyed
results.  `sleepBetween` is `time_between_chunks is not None`. -/
def query_api_multiple (token : String) (queries : List (String × Json))
    (toStruct : Json → Json) (chunksize : Nat) (sleepBetween : Bool)
    (oracle : List String → Nat → Attempt (List (String × Json)))
    (maxRetries : Nat) : MultiOut :=
  if chunksize = 0 then ⟨.error .usageChunksize, 0, 0⟩
  else query_api_multiple_go token toStruct oracle maxRetries sleepBetween
    (chunkList chunksize queries) []

/-- Result of `SDAPIQuery.submit_query`: one DataFrame for the single-query
path, or a keyed dict of DataFrames for the batch path. -/
inductive SQResult where
  | df (d : PandasDF) : SQResult
  | dfDict (ds : List (String × PandasDF)) : SQResult


/-- Failures of `SDAPIQuery.submit_query`: the mutual-exclusivity assertions
(`AssertionError`, raised before any network activity), or a propagated
failure of the dispatched submitter. -/
inductive SQError where
  | usage : SQError
  | single (e : QueryError Json Json) : SQError
  | multi (e : MultiFailure) : SQError


/-- `SDAPIQuery.submit_query`: assert that exactly one of `query_params` /
`queries_params` was supplied, then dispatch to `query_api_df` or to
`query_api_multiple` (the latter with its default `chunksize=500` and
`time_between_chunks=None`).  The second component counts POST attempts. -/
def submit_query (query_params : Option Json)
    (queries_params : Option (List (String × Json))) (token : String)
    (toStruct : Json → Json) (singleOracle : Nat → Attempt Json)
    (multiOracle : List String → Nat → Attempt (List (String × Json)))
    (maxRetries : Nat) : Except SQError SQResult × Nat :=
  match query_params, queries_params with
  | none, none => (.error .usage, 0)
  | some _, some _ => (.error .usage, 0)
  | some q, none =>
    let run := query_api_df token (toStruct q) singleOracle maxRetries
    match run.1 with
    | .error e => (.error (.single e), run.2)
    | .ok d => (.ok (.df d), run.2)
  | none, some qs =>
    let out := query_api_multiple token qs toStruct 500 false multiOracle maxRetries
    match out.result with
    | .error e => (.error (.multi e), out.posts)
    | .ok ds => (.ok (.dfDict ds), out.posts)

/-- Response body of the `jobs/create` endpoint as read by `create_job`:
`res['success']` and `res['message']` (the status code is never inspected
there). -/
structure CreateResponse where
  success : Bool
  message : Json


/-- Response to a `jobs/status` POST as read by `_check_job_status`:
status code, `r['success']` and the status string `r['message']`. -/
structure StatusResponse where
  status_code : Nat
  success : Bool
  message : String


/-- Response to a `jobs/download` POST: status code and raw `r.content`. -/
structure DownloadResponse where
  status_code : Nat
  content : String


/-- Outcome of one job-endpoint POST (`jobs/create`, `jobs/status`,
`jobs/download`): the response received, or a transient transport failure
raised by `requests.post`. -/
inductive JobAttempt (ρ : Type) where
  | response (r : ρ) : JobAttempt ρ
  | transient : JobAttempt ρ


/-- Failures of the `SDJobRunner` operations. -/
inductive JobError where
  | usage (msg : String) : JobError
  | transientRaised : JobError
  | createFailed (message : Json) : JobError
  | createBadShape : JobError
  | statusCheckFailed : JobError
  | statusNotSuccess (message : String) : JobError
  | downloadFailed : JobError
  | notImplemented (fmt : String) : JobError
  | jobFailed (status : String) : JobError
  | neverCompleted : JobError


/-- A downloaded result, decoded per the stored response format
(`pandas.read_csv` / `pandas.read_json` are the external tabular decoder;
we record which was used and on what content). -/
inductive DownloadedDF where
  | fromCsv (content : String) : DownloadedDF
  | fromJson (content : String) : DownloadedDF


/-- Python truthiness of an optional string argument (`if geolevel:` /
`if not geolevel`): `None` and the empty string are falsy. -/
def strTruthy : Option String → Bool
  | none => false
  | some s => s ≠ ""

/-- The fixed enumerated geography levels accepted by `create_job`. -/
def geolevelSet : List String := ["US", "METRO", "GEOID2", "GEOID5", "ZIP", "GEOID11"]

/-- The argument validation of `SDJobRunner.create_job`, in source order: the
`response_format` assertion, the buffers-membership assertion, the
`ValueError` when neither `geolevel` nor `portfolio_id` is truthy, then (when
`geolevel` is truthy) the geolevel-membership assertion and the
`portfolio_id is None` assertion.  `buffersTuple` stands for the constant
`cc.BUFFERS_TUPLE` (the `constants` module is external); the pure
`isinstance` assertions are enforced by the types of the embedding.
Returns the message of the first failing check (`AssertionError` /
`ValueError`, both usage errors raised before any network call), or `none`
when all checks pass. -/
def create_job_validate (geolevel : Option String) (response_format : String)
    (portfolio_id : Option String) (buffers : Option (List String))
    (buffersTuple : List String) : Option String :=
  if response_format ∉ ["csv", "json"] then
    some "response_format must be csv or json"
  else if ¬ (buffers.getD []).all (fun b => b ∈ buffersTuple) then
    some "Invalid buffers"
  else if ¬ strTruthy geolevel ∧ ¬ strTruthy portfolio_id then
    some "Job requires either geolevel or portfolio_id"
  else if strTruthy geolevel then
    if (geolevel.getD "") ∉ geolevelSet then
      some "geolevel must be one of US, METRO, GEOID2, GEOID5, ZIP, GEOID11"
    else if portfolio_id ≠ none then
      some "Cannot have both geolevel and portfolio_id"
    else none
  else none

/-- `SDJobRunner.create_job`: validate the arguments, then issue exactly one
POST to `jobs/create` (a plain `requests.post`, outside any retry loop, so a
transient transport failure propagates to the caller).  On a `success` body,
store `res['message']['job_id']` and the response format; otherwise raise
with `res['message']`.  Returns the outcome (job id and stored response
format on success) and the number of POSTs issued. -/
def create_job (geolevel : Option String) (response_format : String)
    (portfolio_id : Option String) (buffers : Option (List String))
    (buffersTuple : List String) (attempt : JobAttempt CreateResponse) :
    Except JobError (String × String) × Nat :=
  match create_job_validate geolevel response_format portfolio_id buffers buffersTuple with
  | some m => (.error (.usage m), 0)
  | none =>
    match attempt with
    | .transient => (.error .transientRaised, 1)
    | .response cr =>
      if cr.success then
        match jsonGet cr.message "job_id" with
        | some (.str jid) => (.ok (jid, response_format), 1)
        | _ => (.error .createBadShape, 1)
      else (.error (.createFailed cr.message), 1)

/-- `SDJobRunner._check_job_status` (after `_assert_job_created`): one POST to
`jobs/status`; non-200 raises `'Failed to determine job status'`, a
`success = false` body raises with the body, otherwise the status string
`r['message']` is returned.  A transient transport failure propagates
unretried. -/
def check_job_status (attempt : JobAttempt StatusResponse) :
    Except JobError String × Nat :=
  match attempt with
  | .transient => (.error .transientRaised, 1)
  | .response r =>
    if r.status_code ≠ 200 then (.error .statusCheckFailed, 1)
    else if ¬ r.success then (.error (.statusNotSuccess r.message), 1)
    else (.ok r.message, 1)

/-- `SDJobRunner.download_job_to_dataframe` (after `_assert_job_created`):
one POST to `jobs/download`; non-200 raises `'Failed to download file'`,
otherwise the content is decoded per the stored response format (`csv` /
`json`; anything else is `NotImplementedError`, unreachable after
`create_job`'s validation).  A transient transport failure propagates
unretried. -/
def download_job (response_format : String) (attempt : JobAttempt DownloadResponse) :
    Except JobError DownloadedDF × Nat :=
  match attempt with
  | .transient => (.error .transientRaised, 1)
  | .response r =>
    if r.status_code ≠ 200 then (.error .downloadFailed, 1)
    else if response_format = "csv" then (.ok (.fromCsv r.content), 1)
    else if response_format = "json" then (.ok (.fromJson r.content), 1)
    else (.error (.notImplemented response_format), 1)

/-- Observable outcome of the polling loop and of the whole pipeline: the
result, the number of status polls, the number of `time.sleep(10)` inter-poll
delays, and the number of download calls. -/
structure PipelineOut where
  result : Except JobError DownloadedDF
  polls : Nat
  sleeps : Nat
  downloads : Nat


/-- The `for idx in range(100):` polling loop of
`load_df_from_job_pipeline`: poll the status; on `'Completed'` download and
return, on `'Processing'` sleep 10 seconds and continue, on any other status
string raise `('Job failed', job_status)`; when the iteration budget runs out
raise `'Job never completed successfully'`.  `statusOracle i` is the response
to the `i`-th status poll and `fuel` the remaining iterations (100 at the
start). -/
def job_poll_loop (statusOracle : Nat → JobAttempt StatusResponse)
    (response_format : String) (downloadAttempt : JobAttempt DownloadResponse) :
    Nat → Nat → PipelineOut
  | _, 0 => ⟨.error .neverCompleted, 0, 0, 0⟩
  | idx, fuel + 1 =>
    match (check_job_status (statusOracle idx)).1 with
    | .error e => ⟨.error e, 1, 0, 0⟩
    | .ok s =>
      if s = "Completed" then
        ⟨(download_job response_format downloadAttempt).1, 1, 0, 1⟩
      else if s = "Processing" then
        let out := job_poll_loop statusOracle response_format downloadAttempt (idx + 1) fuel
        ⟨out.result, out.polls + 1, out.sleeps + 1, out.downloads⟩
      else ⟨.error (.jobFailed s), 1, 0, 0⟩

/-- `SDJobRunner.load_df_from_job_pipeline`: create the job, then run the
bounded polling loop (100 iterations) from poll index 0.  A create failure
propagates before any poll. -/
def load_df_from_job_pipeline (geolevel : Option String)
    (response_format : String) (portfolio_id : Option String)
    (buffers : Option (List String)) (buffersTuple : List String)
    (createAttempt : JobAttempt CreateResponse)
    (statusOracle : Nat → JobAttempt StatusResponse)
    (downloadAttempt : JobAttempt DownloadResponse) : PipelineOut :=
  match (create_job geolevel response_format portfolio_id buffers buffersTuple createAttempt).1 with
  | .error e => ⟨.error e, 0, 0, 0⟩
  | .ok (_, fmt) => job_poll_loop statusOracle fmt downloadAttempt 0 100

theorem submit_post_request_from_response {π δ : Type} (env : Envelope π)
    (oracle : Nat → Attempt δ) (retryNum retriesLeft : Nat) (r : HttpResponse δ)
    (h : oracle retryNum = .response r) :
    submit_post_request_from env oracle retryNum retriesLeft
      = classify_response env r := by
  cases retriesLeft <;> rw [submit_post_request_from, h]

theorem submit_post_request_from_transient_zero {π δ : Type} (env : Envelope π)
    (oracle : Nat → Attempt δ) (retryNum : Nat)
    (h : oracle retryNum = .transient) :
    submit_post_request_from env oracle retryNum 0
      = (.error (.retryTimeout msgRetry (redact env)), 1) := by
  rw [submit_post_request_from, h]

theorem submit_post_request_from_transient_succ {π δ : Type} (env : Envelope π)
    (oracle : Nat → Attempt δ) (retryNum left : Nat)
    (h : oracle retryNum = .transient) :
    submit_post_request_from env oracle retryNum (left + 1)
      = ((submit_post_request_from env oracle (retryNum + 1) left).1,
         (submit_post_request_from env oracle (retryNum + 1) left).2 + 1) := by
  rw [submit_post_request_from, h]

theorem submit_post_request_from_ok {π δ : Type} (env : Envelope π)
    (oracle : Nat → Attempt δ) (retryNum retriesLeft : Nat) (r : HttpResponse δ)
    (h : oracle retryNum = .response r) (h200 : r.status_code = 200)
    (hs : r.success = true) :
    submit_post_request_from env oracle retryNum retriesLeft
      = (.ok ⟨r.success, r.data⟩, 1) := by
  rw [submit_post_request_from_response env oracle retryNum retriesLeft r h]
  simp [classify_response, h200, hs]

theorem submit_post_request_from_transient_run {π δ : Type} (env : Envelope π)
    (oracle : Nat → Attempt δ) :
    ∀ (left retryNum : Nat), (∀ i, i < left → oracle (retryNum + i) = .transient) →
    submit_post_request_from env oracle retryNum left
      = ((submit_post_request_from env oracle (retryNum + left) 0).1,
         (submit_post_request_from env oracle (retryNum + left) 0).2 + left) := by
  intro left
  induction left with
  | zero => intro retryNum _; simp
  | succ l ih =>
    intro retryNum h
    have h0 : oracle retryNum = .transient := by
      have := h 0 (Nat.succ_pos l)
      simpa using this
    rw [submit_post_request_from_transient_succ env oracle retryNum l h0]
    have hrest : ∀ i, i < l → oracle (retryNum + 1 + i) = .transient := by
      intro i hi
      have := h (i + 1) (Nat.succ_lt_succ hi)
      simpa [Nat.add_assoc, Nat.add_comm 1 i] using this
    rw [ih (retryNum + 1) hrest]
    have harr : retryNum + 1 + l = retryNum + (l + 1) := by omega
    rw [harr]
    ring_nf

theorem submit_post_request_from_attempts_le {π δ : Type} (env : Envelope π)
    (oracle : Nat → Attempt δ) :
    ∀ (left retryNum : Nat),
      (submit_post_request_from env oracle retryNum left).2 ≤ left + 1 := by
  intro left
  induction left with
  | zero =>
    intro retryNum
    rcases h : oracle retryNum with r | _
    · rw [submit_post_request_from_response env oracle retryNum 0 r h]
      simp only [classify_response]
      split_ifs <;> simp
    · rw [submit_post_request_from_transient_zero env oracle retryNum h]
  | succ l ih =>
    intro retryNum
    rcases h : oracle retryNum with r | _
    · rw [submit_post_request_from_response env oracle retryNum (l + 1) r h]
      simp only [classify_response]
      split_ifs <;> simp
    · rw [submit_post_request_from_transient_succ env oracle retryNum l h]
      simpa using Nat.succ_le_succ (ih (retryNum + 1))

theorem submit_post_request_from_redacts {π δ : Type} (env : Envelope π)
    (oracle : Nat → Attempt δ) :
    ∀ (left retryNum : Nat) (e : QueryError π δ) (ctx : Envelope π),
      (submit_post_request_from env oracle retryNum left).1 = .error e →
      errorContext e = some ctx → ctx = redact env := by
  intro left
  induction left with
  | zero =>
    intro retryNum e ctx he hctx
    rcases h : oracle retryNum with r | _
    · rw [submit_post_request_from_response env oracle retryNum 0 r h] at he
      simp only [classify_response] at he
      split_ifs at he <;> simp only [Prod.fst] at he <;>
        cases he <;> simp_all [errorContext]
    · rw [submit_post_request_from_transient_zero env oracle retryNum h] at he
      simp only [Prod.fst] at he
      cases he
      simp_all [errorContext]
  | succ l ih =>
    intro retryNum e ctx he hctx
    rcases h : oracle retryNum with r | _
    · rw [submit_post_request_from_response env oracle retryNum (l + 1) r h] at he
      simp only [classify_response] at he
      split_ifs at he <;> simp only [Prod.fst] at he <;>
        cases he <;> simp_all [errorContext]
    · rw [submit_post_request_from_transient_succ env oracle retryNum l h] at he
      simp only [Prod.fst] at he
      exact ih (retryNum + 1) e ctx he hctx

/-- C2: if the POST raises a transient failure exactly `MAX_RETRIES` times and
then succeeds, `_submit_post_request` returns the decoded success payload
after `MAX_RETRIES + 1` attempts; if all `MAX_RETRIES + 1` attempts fail
transiently, it fails with the terminal timed-out message; and in every run at
most `MAX_RETRIES + 1` attempts are made. -/
theorem submit_post_request_retry_budget {π δ : Type} (env : Envelope π)
    (oracle : Nat → Attempt δ) (maxRetries : Nat) (r : HttpResponse δ) :
    ((∀ i, i < maxRetries → oracle i = .transient) → oracle maxRetries = .response r →
        r.status_code = 200 → r.success = true →
        submit_post_request env oracle maxRetries = (.ok ⟨r.success, r.data⟩, maxRetries + 1))
    ∧ ((∀ i, i ≤ maxRetries → oracle i = .transient) →
        submit_post_request env oracle maxRetries
          = (.error (.retryTimeout msgRetry (redact env)), maxRetries + 1))
    ∧ (submit_post_request env oracle maxRetries).2 ≤ maxRetries + 1 := by
  refine ⟨?_, ?_, ?_⟩
  · intro htrans hresp h200 hs
    unfold submit_post_request
    rw [submit_post_request_from_transient_run env oracle maxRetries 0
      (fun i hi => by simpa using htrans i hi)]
    rw [submit_post_request_from_ok env oracle (0 + maxRetries) 0 r
      (by simpa using hresp) h200 hs]
    simp [Nat.add_comm]
  · intro htrans
    unfold submit_post_request
    rw [submit_post_request_from_transient_run env oracle maxRetries 0
      (fun i hi => by simpa using htrans i (Nat.le_of_lt hi))]
    rw [submit_post_request_from_transient_zero env oracle (0 + maxRetries)
      (by simpa using htrans maxRetries (Nat.le_refl maxRetries))]
    simp [Nat.add_comm]
  · exact submit_post_request_from_attempts_le env oracle maxRetries 0

theorem submit_post_request_retry_budget_witness :
    submit_post_request (δ := Json) ⟨"tok", Json.null⟩
        (fun i => if i < 2 then .transient else .response ⟨200, "", true, Json.null⟩) 2
      = (.ok ⟨true, Json.null⟩, 3)
    ∧ submit_post_request (δ := Json) ⟨"tok", Json.null⟩ (fun _ => .transient) 2
      = (.error (.retryTimeout msgRetry (redact ⟨"tok", Json.null⟩)), 3) := by
  constructor
  · exact (submit_post_request_retry_budget ⟨"tok", Json.null⟩
      (fun i => if i < 2 then .transient else .response ⟨200, "", true, Json.null⟩) 2
      ⟨200, "", true, Json.null⟩).1 (fun i hi => by simp [hi]) (by norm_num) rfl rfl
  · exact (submit_post_request_retry_budget (δ := Json) ⟨"tok", Json.null⟩
      (fun _ => .transient) 2 ⟨200, "", true, Json.null⟩).2.1 (fun i _ => rfl)

/-- C4: whenever `_submit_post_request` fails with a failure that attaches a
request context (non-200 status, status 520, or exhausted retry budget), that
context is the redacted envelope: its token field is the fixed mask string,
never the literal bearer token used in the request. -/
theorem submit_post_request_token_redaction {π δ : Type} (env : Envelope π)
    (oracle : Nat → Attempt δ) (maxRetries : Nat) (e : QueryError π δ)
    (ctx : Envelope π)
    (he : (submit_post_request env oracle maxRetries).1 = .error e)
    (hctx : errorContext e = some ctx) :
    ctx = redact env ∧ ctx.token = maskString
      ∧ (env.token ≠ maskString → ctx.token ≠ env.token) := by
  have h := submit_post_request_from_redacts env oracle maxRetries 0 e ctx he hctx
  subst h
  exact ⟨rfl, rfl, fun hne => Ne.symm hne⟩

theorem submit_post_request_token_redaction_witness :
    ((⟨maskString, Json.null⟩ : Envelope Json)
        = redact (⟨"secret-token", Json.null⟩ : Envelope Json))
    ∧ (⟨maskString, Json.null⟩ : Envelope Json).token = maskString
    ∧ ((⟨"secret-token", Json.null⟩ : Envelope Json).token ≠ maskString →
        (⟨maskString, Json.null⟩ : Envelope Json).token
          ≠ (⟨"secret-token", Json.null⟩ : Envelope Json).token) :=
  submit_post_request_token_redaction (δ := Json) ⟨"secret-token", Json.null⟩
    (fun _ => .response ⟨404, "err", true, Json.null⟩) 3
    (.httpError 404 "err" ⟨maskString, Json.null⟩) ⟨maskString, Json.null⟩ rfl rfl

/-- C7: a received response with HTTP status 520 makes the submission fail at
once with the fixed timed-out ("too much data") message and the redacted
request attached, whatever the response content and body, after exactly one
POST attempt (never retried) — both at any point of the retry loop and for
`_submit_post_request` as a whole when the first attempt gets the 520. -/
theorem submit_post_request_520_terminal {π δ : Type} (env : Envelope π)
    (oracle : Nat → Attempt δ) (maxRetries retryNum retriesLeft : Nat)
    (r : HttpResponse δ) (h520 : r.status_code = 520) :
    (oracle retryNum = .response r →
      submit_post_request_from env oracle retryNum retriesLeft
        = (.error (.timeout520 msg520 (redact env)), 1))
    ∧ (oracle 0 = .response r →
      submit_post_request env oracle maxRetries
        = (.error (.timeout520 msg520 (redact env)), 1)) := by
  constructor
  · intro h
    rw [submit_post_request_from_response env oracle retryNum retriesLeft r h]
    simp [classify_response, h520]
  · intro h
    unfold submit_post_request
    rw [submit_post_request_from_response env oracle 0 maxRetries r h]
    simp [classify_response, h520]

theorem submit_post_request_520_terminal_witness :
    submit_post_request (δ := Json) ⟨"tok", Json.null⟩
        (fun _ => .response ⟨520, "gateway", false, Json.str "junk"⟩) 3
      = (.error (.timeout520 msg520 (redact ⟨"tok", Json.null⟩)), 1) :=
  (submit_post_request_520_terminal ⟨"tok", Json.null⟩
    (fun _ => .response ⟨520, "gateway", false, Json.str "junk"⟩) 3 0 3
    ⟨520, "gateway", false, Json.str "junk"⟩ rfl).2 rfl

theorem chunkListGo_flatten {α : Type} (n : Nat) (hn : 0 < n) :
    ∀ (fuel : Nat) (xs : List α), xs.length ≤ fuel →
      (chunkListGo n fuel xs).flatten = xs := by
  intro fuel
  induction fuel with
  | zero =>
    intro xs h
    have hx : xs = [] := List.length_eq_zero.mp (Nat.le_zero.mp h)
    subst hx
    rfl
  | succ f ih =>
    intro xs h
    cases xs with
    | nil => rfl
    | cons x xs =>
      have hdrop : xs.drop (n - 1) = (x :: xs).drop n := by
        obtain ⟨m, rfl⟩ : ∃ m, n = m + 1 := ⟨n - 1, (Nat.succ_pred_eq_of_pos hn).symm⟩
        simp
      show ((x :: xs).take n :: chunkListGo n f (xs.drop (n - 1))).flatten = x :: xs
      rw [List.flatten_cons, ih (xs.drop (n - 1)) ?hlen, hdrop, List.take_append_drop]
      case hlen =>
        have hd := List.length_drop (n - 1) xs
        have hx : xs.length ≤ f := by simpa using Nat.succ_le_succ_iff.mp h
        omega

theorem chunkList_flatten {α : Type} (n : Nat) (hn : 0 < n) (xs : List α) :
    (chunkList n xs).flatten = xs :=
  chunkListGo_flatten n hn xs.length xs (Nat.le_refl _)

theorem chunkListGo_length_le {α : Type} (n : Nat) :
    ∀ (fuel : Nat) (xs : List α) (c : List α),
      c ∈ chunkListGo n fuel xs → c.length ≤ n := by
  intro fuel
  induction fuel with
  | zero =>
    intro xs c hc
    cases xs <;> simp [chunkListGo] at hc
  | succ f ih =>
    intro xs c hc
    cases xs with
    | nil => simp [chunkListGo] at hc
    | cons x xs =>
      simp only [chunkListGo, List.mem_cons] at hc
      rcases hc with rfl | hc
      · calc ((x :: xs).take n).length = min n (x :: xs).length := List.length_take n _
          _ ≤ n := Nat.min_le_left _ _
      · exact ih (xs.drop (n - 1)) c hc

theorem chunkList_length_le {α : Type} (n : Nat) (xs : List α) (c : List α)
    (hc : c ∈ chunkList n xs) : c.length ≤ n :=
  chunkListGo_length_le n xs.length xs c hc

theorem dictKeys_dictInsert_fresh {α : Type} (d : List (String × α)) (k : String)
    (v : α) (h : k ∉ dictKeys d) :
    dictKeys (dictInsert d k v) = dictKeys d ++ [k] := by
  unfold dictInsert
  rw [if_neg h]
  simp [dictKeys]

theorem dictKeys_foldl_dictInsert {α β : Type} (f : β → α) :
    ∀ (data : List (String × β)) (acc : List (String × α)),
      (data.map Prod.fst).Nodup →
      (∀ k, k ∈ data.map Prod.fst → k ∉ dictKeys acc) →
      dictKeys (data.foldl (fun a kv => dictInsert a kv.1 (f kv.2)) acc)
        = dictKeys acc ++ data.map Prod.fst := by
  intro data
  induction data with
  | nil => intro acc _ _; simp
  | cons kv rest ih =>
    intro acc hnodup hfresh
    obtain ⟨k, v⟩ := kv
    simp only [List.map_cons, List.nodup_cons] at hnodup
    have hk : k ∉ dictKeys acc := hfresh k (by simp)
    have h1 : dictKeys (dictInsert acc k (f v)) = dictKeys acc ++ [k] :=
      dictKeys_dictInsert_fresh acc k (f v) hk
    simp only [List.foldl_cons]
    rw [ih (dictInsert acc k (f v)) hnodup.2 ?fresh]
    · rw [h1]
      simp
    case fresh =>
      intro k' hk'
      rw [h1]
      simp only [List.mem_append, List.mem_singleton]
      rintro (hin | rfl)
      · exact hfresh k' (by simp [hk']) hin
      · exact hnodup.1 hk'

theorem submit_post_request_first_ok {π δ : Type} (env : Envelope π)
    (oracle : Nat → Attempt δ) (maxRetries : Nat) (r : HttpResponse δ)
    (h : oracle 0 = .response r) (h200 : r.status_code = 200)
    (hs : r.success = true) :
    submit_post_request env oracle maxRetries = (.ok ⟨r.success, r.data⟩, 1) :=
  submit_post_request_from_ok env oracle 0 maxRetries r h h200 hs

theorem query_api_multiple_go_keys (token : String) (toStruct : Json → Json)
    (oracle : List String → Nat → Attempt (List (String × Json)))
    (maxRetries : Nat) (sleepBetween : Bool) :
    ∀ (chunks : List (List (String × Json))) (acc : List (String × PandasDF)),
      (dictKeys acc ++ (chunks.map (fun c => c.map Prod.fst)).flatten).Nodup →
      (∀ c ∈ chunks, ∃ r : HttpResponse (List (String × Json)),
          oracle (dictKeys c) 0 = .response r ∧ r.status_code = 200 ∧
          r.success = true ∧ r.data.map Prod.fst = c.map Prod.fst) →
      ∃ d, (query_api_multiple_go token toStruct oracle maxRetries sleepBetween
              chunks acc).result = .ok d
        ∧ dictKeys d
            = dictKeys acc ++ (chunks.map (fun c => c.map Prod.fst)).flatten := by
  intro chunks
  induction chunks with
  | nil =>
    intro acc _ _
    exact ⟨acc, rfl, by simp⟩
  | cons c rest ih =>
    intro acc hnodup hresp
    obtain ⟨r, hor, h200, hs, hdata⟩ := hresp c (by simp)
    simp only [List.map_cons, List.flatten_cons] at hnodup ⊢
    rw [List.nodup_append] at hnodup
    obtain ⟨hA, hckrj, hdisj⟩ := hnodup
    rw [List.nodup_append] at hckrj
    obtain ⟨hck, hrj, hdisj2⟩ := hckrj
    rw [query_api_multiple_go,
      submit_post_request_first_ok _ (oracle (dictKeys c)) maxRetries r hor h200 hs]
    dsimp only
    have hacc2 : dictKeys
        (r.data.foldl (fun a kv => dictInsert a kv.1 (decodeDF kv.2)) acc)
        = dictKeys acc ++ c.map Prod.fst := by
      rw [dictKeys_foldl_dictInsert decodeDF r.data acc (by rw [hdata]; exact hck)
        (fun k hk hkA => hdisj hkA (List.mem_append_left _ (hdata ▸ hk))), hdata]
    obtain ⟨d, hd, hkeys⟩ := ih
      (r.data.foldl (fun a kv => dictInsert a kv.1 (decodeDF kv.2)) acc)
      (by
        rw [hacc2]
        rw [List.nodup_append]
        refine ⟨by rw [List.nodup_append]; exact ⟨hA, hck,
          fun a ha hb => hdisj ha (List.mem_append_left _ hb)⟩, hrj, ?_⟩
        intro a ha hb
        rcases List.mem_append.mp ha with haA | hac
        · exact hdisj haA (List.mem_append_right _ hb)
        · exact hdisj2 hac hb)
      (fun c' hc' => hresp c' (by simp [hc']))
    refine ⟨d, hd, ?_⟩
    rw [hkeys, hacc2, List.append_assoc]

/-- C1: for every chunksize ≥ 1 and every keyed query mapping (unique keys, in
their stable iteration order), `query_api_multiple` partitions the keys into
contiguous chunks of at most `chunksize` keys each, covering every key exactly
once (their concatenation is the key list); and when every chunk request
succeeds — its first attempt returns a 200 success body keyed by exactly the
chunk's keys — the returned result dict's key list equals the input's key
list (so in particular the key sets are equal). -/
theorem query_api_multiple_partitions (token : String) (toStruct : Json → Json)
    (queries : List (String × Json)) (chunksize : Nat) (sleepBetween : Bool)
    (oracle : List String → Nat → Attempt (List (String × Json)))
    (maxRetries : Nat) (hchunk : 0 < chunksize)
    (hnodup : (queries.map Prod.fst).Nodup)
    (hresp : ∀ c ∈ chunkList chunksize queries,
        ∃ r : HttpResponse (List (String × Json)),
          oracle (dictKeys c) 0 = .response r ∧ r.status_code = 200 ∧
          r.success = true ∧ r.data.map Prod.fst = c.map Prod.fst) :
    (∀ c ∈ chunkList chunksize queries, c.length ≤ chunksize)
    ∧ ((chunkList chunksize queries).map (fun c => c.map Prod.fst)).flatten
        = queries.map Prod.fst
    ∧ ∃ d, (query_api_multiple token queries toStruct chunksize sleepBetween oracle
            maxRetries).result = .ok d
        ∧ dictKeys d = queries.map Prod.fst := by
  have hflat : ((chunkList chunksize queries).map (fun c => c.map Prod.fst)).flatten
      = queries.map Prod.fst := by
    have h1 := List.map_flatten (f := Prod.fst) (L := chunkList chunksize queries)
    have h2 := chunkList_flatten chunksize hchunk queries
    rw [← h1, h2]
  refine ⟨fun c hc => chunkList_length_le chunksize queries c hc, hflat, ?_⟩
  unfold query_api_multiple
  rw [if_neg (Nat.pos_iff_ne_zero.mp hchunk)]
  obtain ⟨d, hd, hkeys⟩ := query_api_multiple_go_keys token toStruct oracle maxRetries
    sleepBetween (chunkList chunksize queries) []
    (by simpa [dictKeys, hflat] using hnodup) hresp
  exact ⟨d, hd, by simpa [dictKeys, hflat] using hkeys⟩

theorem query_api_multiple_partitions_witness :
    (∀ c ∈ chunkList 1 [("a", Json.null), ("b", Json.null)], c.length ≤ 1)
    ∧ ((chunkList 1 [("a", Json.null), ("b", Json.null)]).map
          (fun c => c.map Prod.fst)).flatten
        = [("a", Json.null), ("b", Json.null)].map Prod.fst
    ∧ ∃ d, (query_api_multiple "tok" [("a", Json.null), ("b", Json.null)] id 1 false
            (fun ks _ => .response ⟨200, "", true, ks.map (fun k => (k, Json.null))⟩)
            3).result = .ok d
        ∧ dictKeys d = [("a", Json.null), ("b", Json.null)].map Prod.fst :=
  query_api_multiple_partitions "tok" id [("a", Json.null), ("b", Json.null)] 1 false
    (fun ks _ => .response ⟨200, "", true, ks.map (fun k => (k, Json.null))⟩) 3
    (by norm_num) (by decide)
    (fun c _ => ⟨⟨200, "", true, (dictKeys c).map (fun k => (k, Json.null))⟩, rfl, rfl,
      by simp [dictKeys]⟩)

/-- C10: for the empty query mapping and every valid chunksize ≥ 1,
`query_api_multiple` issues zero POSTs (and zero sleeps) and returns the
empty result dict. -/
theorem query_api_multiple_empty (token : String) (toStruct : Json → Json)
    (chunksize : Nat) (sleepBetween : Bool)
    (oracle : List String → Nat → Attempt (List (String × Json)))
    (maxRetries : Nat) (hchunk : 0 < chunksize) :
    query_api_multiple token [] toStruct chunksize sleepBetween oracle maxRetries
      = ⟨.ok [], 0, 0⟩ := by
  unfold query_api_multiple
  rw [if_neg (Nat.pos_iff_ne_zero.mp hchunk)]
  rfl

theorem query_api_multiple_empty_witness :
    query_api_multiple "tok" [] id 500 false (fun _ _ => .transient) 3
      = ⟨.ok [], 0, 0⟩ :=
  query_api_multiple_empty "tok" id 500 false (fun _ _ => .transient) 3 (by norm_num)

/-- C8 counterexample: take a successful single-query response whose `data`
field is a one-element list containing the row list (exactly the claim's
premise).  `query_api_df` builds its DataFrame from the whole `data` value
(`pandas.DataFrame(json_data['data'])`), which differs from the DataFrame
built from the contained row list `data[0]` the claim says it consumes —
while `query_api_json` does return `data[0]`. -/
theorem query_api_df_not_from_contained_row_list :
    (query_api_df "tok" Json.null
        (fun _ => .response ⟨200, "", true,
          Json.arr [Json.arr [Json.num 1, Json.num 2]]⟩) 3).1
      = .ok (decodeDF (Json.arr [Json.arr [Json.num 1, Json.num 2]]))
    ∧ decodeDF (Json.arr [Json.arr [Json.num 1, Json.num 2]])
        ≠ decodeDF (Json.arr [Json.num 1, Json.num 2])
    ∧ (query_api_json "tok" Json.null
        (fun _ => .response ⟨200, "", true,
          Json.arr [Json.arr [Json.num 1, Json.num 2]]⟩) 3).1
      = .ok (some (Json.arr [Json.num 1, Json.num 2])) := by
  refine ⟨rfl, ?_, rfl⟩
  intro h
  simp only [decodeDF, PandasDF.mk.injEq] at h
  simp at h

/-- C8 (amended): for every successful single-query response, both decoders
consume `json_data['data']` itself: `query_api_json` returns the first
element `data[0]` of the data value, and `query_api_df` builds its DataFrame
from the whole data value (the row list), not from its first element. -/
theorem single_query_decoders_consume_data (token : String) (q : Json)
    (oracle : Nat → Attempt Json) (maxRetries : Nat) (r : HttpResponse Json)
    (h : oracle 0 = .response r) (h200 : r.status_code = 200)
    (hs : r.success = true) :
    (query_api_json token q oracle maxRetries).1 = .ok (jsonFirst r.data)
    ∧ (query_api_df token q oracle maxRetries).1 = .ok (decodeDF r.data) := by
  have hrun := submit_post_request_first_ok ⟨token, q⟩ oracle maxRetries r h h200 hs
  constructor
  · simp only [query_api_json, hrun]
  · simp only [query_api_df, hrun]

theorem single_query_decoders_consume_data_witness :
    (query_api_json "tok" Json.null
        (fun _ => .response ⟨200, "", true, Json.arr [Json.num 7]⟩) 3).1
      = .ok (jsonFirst (Json.arr [Json.num 7]))
    ∧ (query_api_df "tok" Json.null
        (fun _ => .response ⟨200, "", true, Json.arr [Json.num 7]⟩) 3).1
      = .ok (decodeDF (Json.arr [Json.num 7])) :=
  single_query_decoders_consume_data "tok" Json.null
    (fun _ => .response ⟨200, "", true, Json.arr [Json.num 7]⟩) 3
    ⟨200, "", true, Json.arr [Json.num 7]⟩ rfl rfl rfl

/-- C5: `submit_query` with both `query_params` and `queries_params` set, or
with neither, fails the mutual-exclusivity assertions with zero POSTs issued;
with exactly one of them set it dispatches to the matching submitter —
returning one decoded DataFrame on a successful single-query response, and,
when every batch chunk succeeds with a body keyed by the chunk's keys, a
result dict keyed identically to the input mapping. -/
theorem submit_query_dispatch (token : String) (toStruct : Json → Json)
    (singleOracle : Nat → Attempt Json)
    (multiOracle : List String → Nat → Attempt (List (String × Json)))
    (maxRetries : Nat) (q : Json) (qs : List (String × Json)) :
    (submit_query none none token toStruct singleOracle multiOracle maxRetries
        = (.error .usage, 0))
    ∧ (submit_query (some q) (some qs) token toStruct singleOracle multiOracle
        maxRetries = (.error .usage, 0))
    ∧ (∀ r : HttpResponse Json, singleOracle 0 = .response r →
        r.status_code = 200 → r.success = true →
        submit_query (some q) none token toStruct singleOracle multiOracle maxRetries
          = (.ok (.df (decodeDF r.data)), 1))
    ∧ ((qs.map Prod.fst).Nodup →
       (∀ c ∈ chunkList 500 qs, ∃ r : HttpResponse (List (String × Json)),
            multiOracle (dictKeys c) 0 = .response r ∧ r.status_code = 200 ∧
            r.success = true ∧ r.data.map Prod.fst = c.map Prod.fst) →
       ∃ ds, submit_query none (some qs) token toStruct singleOracle multiOracle
            maxRetries
          = (.ok (.dfDict ds),
             (query_api_multiple token qs toStruct 500 false multiOracle
               maxRetries).posts)
        ∧ dictKeys ds = qs.map Prod.fst) := by
  refine ⟨rfl, rfl, ?_, ?_⟩
  · intro r h h200 hs
    have hrun := submit_post_request_first_ok ⟨token, toStruct q⟩ singleOracle
      maxRetries r h h200 hs
    simp only [submit_query, query_api_df, hrun]
  · intro hnodup hresp
    have hflat : ((chunkList 500 qs).map (fun c => c.map Prod.fst)).flatten
        = qs.map Prod.fst := by
      have h1 := List.map_flatten (f := Prod.fst) (L := chunkList 500 qs)
      have h2 := chunkList_flatten 500 (by norm_num) qs
      rw [← h1, h2]
    obtain ⟨d, hd, hkeys⟩ := query_api_multiple_go_keys token toStruct multiOracle
      maxRetries false (chunkList 500 qs) []
      (by simpa [dictKeys, hflat] using hnodup) hresp
    have hq : (query_api_multiple token qs toStruct 500 false multiOracle
        maxRetries).result = .ok d := by
      unfold query_api_multiple
      rw [if_neg (by norm_num)]
      exact hd
    refine ⟨d, ?_, by simpa [dictKeys, hflat] using hkeys⟩
    simp only [submit_query, hq]

theorem submit_query_dispatch_witness :
    (submit_query none none "tok" id
        (fun _ => .response ⟨200, "", true, Json.arr []⟩)
        (fun ks _ => .response ⟨200, "", true, ks.map (fun k => (k, Json.null))⟩) 3
      = (.error .usage, 0))
    ∧ (submit_query (some Json.null) (some [("a", Json.null)]) "tok" id
        (fun _ => .response ⟨200, "", true, Json.arr []⟩)
        (fun ks _ => .response ⟨200, "", true, ks.map (fun k => (k, Json.null))⟩) 3
      = (.error .usage, 0))
    ∧ (submit_query (some Json.null) none "tok" id
        (fun _ => .response ⟨200, "", true, Json.arr []⟩)
        (fun ks _ => .response ⟨200, "", true, ks.map (fun k => (k, Json.null))⟩) 3
      = (.ok (.df (decodeDF (Json.arr []))), 1))
    ∧ ∃ ds, submit_query none (some [("a", Json.null)]) "tok" id
        (fun _ => .response ⟨200, "", true, Json.arr []⟩)
        (fun ks _ => .response ⟨200, "", true, ks.map (fun k => (k, Json.null))⟩) 3
        = (.ok (.dfDict ds),
           (query_api_multiple "tok" [("a", Json.null)] id 500 false
             (fun ks _ => .response ⟨200, "", true, ks.map (fun k => (k, Json.null))⟩)
             3).posts)
      ∧ dictKeys ds = [("a", Json.null)].map Prod.fst := by
  obtain ⟨h1, h2, h3, h4⟩ := submit_query_dispatch "tok" id
    (fun _ => .response ⟨200, "", true, Json.arr []⟩)
    (fun ks _ => .response ⟨200, "", true, ks.map (fun k => (k, Json.null))⟩)
    3 Json.null [("a", Json.null)]
  exact ⟨h1, h2, h3 ⟨200, "", true, Json.arr []⟩ rfl rfl rfl,
    h4 (by decide) (fun c _ =>
      ⟨⟨200, "", true, (dictKeys c).map (fun k => (k, Json.null))⟩, rfl, rfl,
        by simp [dictKeys]⟩)⟩

theorem job_poll_loop_processing (statusOracle : Nat → JobAttempt StatusResponse)
    (fmt : String) (dl : JobAttempt DownloadResponse) (idx fuel : Nat)
    (h : statusOracle idx = .response ⟨200, true, "Processing"⟩) :
    job_poll_loop statusOracle fmt dl idx (fuel + 1)
      = ⟨(job_poll_loop statusOracle fmt dl (idx + 1) fuel).result,
         (job_poll_loop statusOracle fmt dl (idx + 1) fuel).polls + 1,
         (job_poll_loop statusOracle fmt dl (idx + 1) fuel).sleeps + 1,
         (job_poll_loop statusOracle fmt dl (idx + 1) fuel).downloads⟩ := by
  rw [job_poll_loop, h]
  simp [check_job_status]

theorem job_poll_loop_completed (statusOracle : Nat → JobAttempt StatusResponse)
    (fmt : String) (dl : JobAttempt DownloadResponse) (idx fuel : Nat)
    (h : statusOracle idx = .response ⟨200, true, "Completed"⟩) :
    job_poll_loop statusOracle fmt dl idx (fuel + 1)
      = ⟨(download_job fmt dl).1, 1, 0, 1⟩ := by
  rw [job_poll_loop, h]
  simp [check_job_status]

theorem job_poll_loop_other (statusOracle : Nat → JobAttempt StatusResponse)
    (fmt : String) (dl : JobAttempt DownloadResponse) (idx fuel : Nat) (s : String)
    (h : statusOracle idx = .response ⟨200, true, s⟩)
    (h1 : s ≠ "Completed") (h2 : s ≠ "Processing") :
    job_poll_loop statusOracle fmt dl idx (fuel + 1)
      = ⟨.error (.jobFailed s), 1, 0, 0⟩ := by
  rw [job_poll_loop, h]
  simp [check_job_status, h1, h2]

theorem job_poll_loop_all_processing (statusOracle : Nat → JobAttempt StatusResponse)
    (fmt : String) (dl : JobAttempt DownloadResponse) :
    ∀ (fuel idx : Nat),
      (∀ i, i < idx + fuel → statusOracle i = .response ⟨200, true, "Processing"⟩) →
      job_poll_loop statusOracle fmt dl idx fuel
        = ⟨.error .neverCompleted, fuel, fuel, 0⟩ := by
  intro fuel
  induction fuel with
  | zero => intro idx _; rfl
  | succ f ih =>
    intro idx h
    rw [job_poll_loop_processing statusOracle fmt dl idx f
      (h idx (by omega))]
    rw [ih (idx + 1) (fun i hi => h i (by omega))]

/-- C3: after a successful job creation, `load_df_from_job_pipeline` run
against the poll-status sequence [Processing, Processing, Completed] performs
exactly 2 inter-poll delays and returns the downloaded result immediately
after the 3rd poll (exactly one download call); run against 100 consecutive
Processing statuses it fails with the distinct "Job never completed" error
without ever invoking the download; and any first status string other than
"Completed" or "Processing" makes it fail immediately as a job failure. -/
theorem load_df_from_job_pipeline_polling (geolevel : Option String)
    (response_format : String) (portfolio_id : Option String)
    (buffers : Option (List String)) (buffersTuple : List String)
    (createAttempt : JobAttempt CreateResponse)
    (statusOracle : Nat → JobAttempt StatusResponse)
    (downloadAttempt : JobAttempt DownloadResponse) (jid : String) (s : String)
    (hcreate : (create_job geolevel response_format portfolio_id buffers
        buffersTuple createAttempt).1 = .ok (jid, response_format)) :
    ((statusOracle 0 = .response ⟨200, true, "Processing"⟩) →
     (statusOracle 1 = .response ⟨200, true, "Processing"⟩) →
     (statusOracle 2 = .response ⟨200, true, "Completed"⟩) →
      load_df_from_job_pipeline geolevel response_format portfolio_id buffers
          buffersTuple createAttempt statusOracle downloadAttempt
        = ⟨(download_job response_format downloadAttempt).1, 3, 2, 1⟩)
    ∧ ((∀ i, i < 100 → statusOracle i = .response ⟨200, true, "Processing"⟩) →
      load_df_from_job_pipeline geolevel response_format portfolio_id buffers
          buffersTuple createAttempt statusOracle downloadAttempt
        = ⟨.error .neverCompleted, 100, 100, 0⟩)
    ∧ ((statusOracle 0 = .response ⟨200, true, s⟩) → s ≠ "Completed" →
        s ≠ "Processing" →
      load_df_from_job_pipeline geolevel response_format portfolio_id buffers
          buffersTuple createAttempt statusOracle downloadAttempt
        = ⟨.error (.jobFailed s), 1, 0, 0⟩) := by
  have hpipe : load_df_from_job_pipeline geolevel response_format portfolio_id
      buffers buffersTuple createAttempt statusOracle downloadAttempt
      = job_poll_loop statusOracle response_format downloadAttempt 0 100 := by
    unfold load_df_from_job_pipeline
    rw [hcreate]
  refine ⟨?_, ?_, ?_⟩
  · intro h0 h1 h2
    rw [hpipe]
    rw [show (100 : Nat) = 99 + 1 from rfl,
      job_poll_loop_processing statusOracle response_format downloadAttempt 0 99 h0]
    rw [show (99 : Nat) = 98 + 1 from rfl,
      job_poll_loop_processing statusOracle response_format downloadAttempt 1 98 h1]
    rw [show (98 : Nat) = 97 + 1 from rfl,
      job_poll_loop_completed statusOracle response_format downloadAttempt 2 97 h2]
  · intro h
    rw [hpipe, job_poll_loop_all_processing statusOracle response_format
      downloadAttempt 100 0 (fun i hi => h i (by omega))]
  · intro h0 h1 h2
    rw [hpipe]
    rw [show (100 : Nat) = 99 + 1 from rfl,
      job_poll_loop_other statusOracle response_format downloadAttempt 0 99 s h0 h1 h2]

theorem load_df_from_job_pipeline_polling_witness :
    (load_df_from_job_pipeline (some "US") "csv" none none []
        (.response ⟨true, Json.obj [("job_id", Json.str "j1")]⟩)
        (fun i => if i < 2 then .response ⟨200, true, "Processing"⟩
          else .response ⟨200, true, "Completed"⟩)
        (.response ⟨200, "rows"⟩)
      = ⟨(download_job "csv" (.response ⟨200, "rows"⟩)).1, 3, 2, 1⟩)
    ∧ (load_df_from_job_pipeline (some "US") "csv" none none []
        (.response ⟨true, Json.obj [("job_id", Json.str "j1")]⟩)
        (fun _ => .response ⟨200, true, "Processing"⟩)
        (.response ⟨200, "rows"⟩)
      = ⟨.error .neverCompleted, 100, 100, 0⟩)
    ∧ (load_df_from_job_pipeline (some "US") "csv" none none []
        (.response ⟨true, Json.obj [("job_id", Json.str "j1")]⟩)
        (fun _ => .response ⟨200, true, "Failed"⟩)
        (.response ⟨200, "rows"⟩)
      = ⟨.error (.jobFailed "Failed"), 1, 0, 0⟩) := by
  refine ⟨?_, ?_, ?_⟩
  · exact (load_df_from_job_pipeline_polling (some "US") "csv" none none []
      (.response ⟨true, Json.obj [("job_id", Json.str "j1")]⟩)
      (fun i => if i < 2 then .response ⟨200, true, "Processing"⟩
        else .response ⟨200, true, "Completed"⟩)
      (.response ⟨200, "rows"⟩) "j1" "x" rfl).1 (by simp) (by simp) rfl
  · exact (load_df_from_job_pipeline_polling (some "US") "csv" none none []
      (.response ⟨true, Json.obj [("job_id", Json.str "j1")]⟩)
      (fun _ => .response ⟨200, true, "Processing"⟩)
      (.response ⟨200, "rows"⟩) "j1" "x" rfl).2.1 (fun i _ => rfl)
  · exact (load_df_from_job_pipeline_polling (some "US") "csv" none none []
      (.response ⟨true, Json.obj [("job_id", Json.str "j1")]⟩)
      (fun _ => .response ⟨200, true, "Failed"⟩)
      (.response ⟨200, "rows"⟩) "j1" "Failed" rfl).2.2 rfl (by decide) (by decide)

theorem create_job_of_validate_some (geolevel : Option String)
    (response_format : String) (portfolio_id : Option String)
    (buffers : Option (List String)) (buffersTuple : List String)
    (attempt : JobAttempt CreateResponse) (m : String)
    (h : create_job_validate geolevel response_format portfolio_id buffers
        buffersTuple = some m) :
    create_job geolevel response_format portfolio_id buffers buffersTuple attempt
      = (.error (.usage m), 0) := by
  unfold create_job
  rw [h]

theorem create_job_posts_of_validate_none (geolevel : Option String)
    (response_format : String) (portfolio_id : Option String)
    (buffers : Option (List String)) (buffersTuple : List String)
    (attempt : JobAttempt CreateResponse)
    (h : create_job_validate geolevel response_format portfolio_id buffers
        buffersTuple = none) :
    (create_job geolevel response_format portfolio_id buffers buffersTuple
        attempt).2 = 1 := by
  unfold create_job
  rw [h]
  cases attempt with
  | transient => rfl
  | response cr =>
    dsimp only
    by_cases hs : cr.success
    · rcases hjg : jsonGet cr.message "job_id" with _ | j
      · simp [hs, hjg]
      · cases j <;> simp [hs, hjg]
    · simp [hs]

theorem create_job_posts_le_one (geolevel : Option String)
    (response_format : String) (portfolio_id : Option String)
    (buffers : Option (List String)) (buffersTuple : List String)
    (attempt : JobAttempt CreateResponse) :
    (create_job geolevel response_format portfolio_id buffers buffersTuple
        attempt).2 ≤ 1 := by
  rcases hv : create_job_validate geolevel response_format portfolio_id buffers
      buffersTuple with _ | m
  · rw [create_job_posts_of_validate_none geolevel response_format portfolio_id
      buffers buffersTuple attempt hv]
  · rw [create_job_of_validate_some geolevel response_format portfolio_id
      buffers buffersTuple attempt m hv]
    exact Nat.zero_le 1

/-- C6 (amended): `create_job` validates all arguments before any network
call, where — by Python truthiness in `if not geolevel and not portfolio_id`
and `if geolevel:` — an empty-string geolevel or portfolio_id counts as not
supplied.  Supplying both a non-empty geolevel and a portfolio_id, or
supplying neither a non-empty geolevel nor a non-empty portfolio_id, is a
usage error; a supplied non-empty geolevel must be one of {US, METRO, GEOID2,
GEOID5, ZIP, GEOID11}; response_format must be csv or json; every buffer must
belong to the allowed buffer set; every such violation fails with a usage
error and zero POSTs, and when validation passes exactly one POST is
issued. -/
theorem create_job_validates_before_post (geolevel : Option String)
    (response_format : String) (portfolio_id : Option String)
    (buffers : Option (List String)) (buffersTuple : List String)
    (attempt : JobAttempt CreateResponse) (g p b : String) (bs : List String) :
    ((geolevel = some g → g ≠ "" → portfolio_id = some p →
      ∃ m, create_job geolevel response_format portfolio_id buffers buffersTuple
          attempt = (.error (.usage m), 0)))
    ∧ ((strTruthy geolevel = false → strTruthy portfolio_id = false →
      ∃ m, create_job geolevel response_format portfolio_id buffers buffersTuple
          attempt = (.error (.usage m), 0)))
    ∧ ((geolevel = some g → g ≠ "" → g ∉ geolevelSet →
      ∃ m, create_job geolevel response_format portfolio_id buffers buffersTuple
          attempt = (.error (.usage m), 0)))
    ∧ ((response_format ∉ ["csv", "json"] →
      ∃ m, create_job geolevel response_format portfolio_id buffers buffersTuple
          attempt = (.error (.usage m), 0)))
    ∧ ((buffers = some bs → b ∈ bs → b ∉ buffersTuple →
      ∃ m, create_job geolevel response_format portfolio_id buffers buffersTuple
          attempt = (.error (.usage m), 0)))
    ∧ (create_job_validate geolevel response_format portfolio_id buffers
        buffersTuple = none →
      (create_job geolevel response_format portfolio_id buffers buffersTuple
          attempt).2 = 1) := by
  have hsome : ∀ m, create_job_validate geolevel response_format portfolio_id
      buffers buffersTuple = some m →
      create_job geolevel response_format portfolio_id buffers buffersTuple attempt
        = (.error (.usage m), 0) :=
    fun m hm => create_job_of_validate_some geolevel response_format portfolio_id
      buffers buffersTuple attempt m hm
  refine ⟨?_, ?_, ?_, ?_, ?_, ?_⟩
  · intro hg hgne hp
    subst hg
    subst hp
    have : ∃ m, create_job_validate (some g) response_format (some p) buffers
        buffersTuple = some m := by
      unfold create_job_validate
      split_ifs with h1 h2 h3 h4 h5 h6 <;>
        first
          | exact ⟨_, rfl⟩
          | (exfalso; simp_all [strTruthy])
    obtain ⟨m, hm⟩ := this
    exact ⟨m, hsome m hm⟩
  · intro hg hp
    have : ∃ m, create_job_validate geolevel response_format portfolio_id buffers
        buffersTuple = some m := by
      unfold create_job_validate
      split_ifs with h1 h2 h3 h4 h5 h6 <;>
        first
          | exact ⟨_, rfl⟩
          | (exfalso; simp_all [strTruthy])
    obtain ⟨m, hm⟩ := this
    exact ⟨m, hsome m hm⟩
  · intro hg hgne hgset
    subst hg
    have : ∃ m, create_job_validate (some g) response_format portfolio_id buffers
        buffersTuple = some m := by
      unfold create_job_validate
      split_ifs with h1 h2 h3 h4 h5 h6 <;>
        first
          | exact ⟨_, rfl⟩
          | (exfalso; simp_all [strTruthy])
    obtain ⟨m, hm⟩ := this
    exact ⟨m, hsome m hm⟩
  · intro hrf
    have hm : create_job_validate geolevel response_format portfolio_id buffers
        buffersTuple = some "response_format must be csv or json" := by
      unfold create_job_validate
      rw [if_pos hrf]
    exact ⟨_, hsome _ hm⟩
  · intro hb hbs hbt
    subst hb
    have : ∃ m, create_job_validate geolevel response_format portfolio_id
        (some bs) buffersTuple = some m := by
      unfold create_job_validate
      split_ifs with h1 h2 h3 h4 h5 h6 <;>
        first
          | exact ⟨_, rfl⟩
          | (exfalso
             simp only [Option.getD_some] at h2
             exact hbt (of_decide_eq_true (List.all_eq_true.mp h2 b hbs)))
    obtain ⟨m, hm⟩ := this
    exact ⟨m, hsome m hm⟩
  · exact create_job_posts_of_validate_none geolevel response_format portfolio_id
      buffers buffersTuple attempt

/-- C6 counterexample: with `geolevel = some ""` and `portfolio_id = some "p"`
both supplied (and `""` not in the allowed geolevel set), the claim demands a
usage error and no POST; but because `if geolevel:` treats the empty string as
falsy, `create_job` passes validation and issues the POST (one POST, success
returned). -/
theorem create_job_empty_geolevel_counterexample :
    create_job (some "") "csv" (some "p") none []
        (.response ⟨true, Json.obj [("job_id", Json.str "j1")]⟩)
      = (.ok ("j1", "csv"), 1)
    ∧ ("" ∉ geolevelSet) := by
  exact ⟨rfl, by decide⟩

theorem create_job_validates_before_post_witness :
    (∃ m, create_job (some "US") "csv" (some "p") none []
        (.response ⟨true, Json.obj [("job_id", Json.str "j1")]⟩)
      = (.error (.usage m), 0))
    ∧ (∃ m, create_job none "csv" none none []
        (.response ⟨true, Json.obj [("job_id", Json.str "j1")]⟩)
      = (.error (.usage m), 0))
    ∧ (∃ m, create_job (some "NOPE") "csv" none none []
        (.response ⟨true, Json.obj [("job_id", Json.str "j1")]⟩)
      = (.error (.usage m), 0))
    ∧ (∃ m, create_job (some "US") "xml" none none []
        (.response ⟨true, Json.obj [("job_id", Json.str "j1")]⟩)
      = (.error (.usage m), 0))
    ∧ (∃ m, create_job (some "US") "csv" none (some ["z"]) []
        (.response ⟨true, Json.obj [("job_id", Json.str "j1")]⟩)
      = (.error (.usage m), 0))
    ∧ ((create_job (some "US") "csv" none none []
        (.response ⟨true, Json.obj [("job_id", Json.str "j1")]⟩)).2 = 1) := by
  refine ⟨?_, ?_, ?_, ?_, ?_, ?_⟩
  · exact (create_job_validates_before_post (some "US") "csv" (some "p") none []
      (.response ⟨true, Json.obj [("job_id", Json.str "j1")]⟩)
      "US" "p" "z" []).1 rfl (by decide) rfl
  · exact (create_job_validates_before_post none "csv" none none []
      (.response ⟨true, Json.obj [("job_id", Json.str "j1")]⟩)
      "US" "p" "z" []).2.1 rfl rfl
  · exact (create_job_validates_before_post (some "NOPE") "csv" none none []
      (.response ⟨true, Json.obj [("job_id", Json.str "j1")]⟩)
      "NOPE" "p" "z" []).2.2.1 rfl (by decide) (by decide)
  · exact (create_job_validates_before_post (some "US") "xml" none none []
      (.response ⟨true, Json.obj [("job_id", Json.str "j1")]⟩)
      "US" "p" "z" []).2.2.2.1 (by decide)
  · exact (create_job_validates_before_post (some "US") "csv" none (some ["z"]) []
      (.response ⟨true, Json.obj [("job_id", Json.str "j1")]⟩)
      "US" "p" "z" ["z"]).2.2.2.2.1 rfl (by decide) (by decide)
  · exact (create_job_validates_before_post (some "US") "csv" none none []
      (.response ⟨true, Json.obj [("job_id", Json.str "j1")]⟩)
      "US" "p" "z" []).2.2.2.2.2 rfl

/-- C9: each job-lifecycle operation issues at most one POST per invocation —
exactly one once its arguments validate — and a transient transport failure
(connection error or timeout) raised during a job call propagates to the
caller immediately as `transientRaised`, with no retry and no backoff; by
contrast `_submit_post_request` retries transient failures, making
`maxRetries + 1` POST attempts in the all-transient run. -/
theorem job_operations_single_post {π : Type} (env : Envelope π)
    (geolevel : Option String) (response_format : String)
    (portfolio_id : Option String) (buffers : Option (List String))
    (buffersTuple : List String) (attempt : JobAttempt CreateResponse)
    (sAttempt : JobAttempt StatusResponse) (dAttempt : JobAttempt DownloadResponse)
    (fmt : String) (maxRetries : Nat) :
    ((create_job geolevel response_format portfolio_id buffers buffersTuple
        attempt).2 ≤ 1)
    ∧ (create_job_validate geolevel response_format portfolio_id buffers
          buffersTuple = none → attempt = .transient →
        create_job geolevel response_format portfolio_id buffers buffersTuple
          attempt = (.error .transientRaised, 1))
    ∧ ((check_job_status sAttempt).2 = 1)
    ∧ (sAttempt = .transient →
        check_job_status sAttempt = (.error .transientRaised, 1))
    ∧ ((download_job fmt dAttempt).2 = 1)
    ∧ (dAttempt = .transient →
        download_job fmt dAttempt = (.error .transientRaised, 1))
    ∧ ((submit_post_request (δ := π) env (fun _ => .transient) maxRetries).2
        = maxRetries + 1) := by
  refine ⟨?_, ?_, ?_, ?_, ?_, ?_, ?_⟩
  · exact create_job_posts_le_one geolevel response_format portfolio_id buffers
      buffersTuple attempt
  · intro hv ha
    subst ha
    unfold create_job
    rw [hv]
  · cases sAttempt with
    | transient => rfl
    | response r =>
      unfold check_job_status
      dsimp only
      split_ifs <;> rfl
  · intro h
    subst h
    rfl
  · cases dAttempt with
    | transient => rfl
    | response r =>
      unfold download_job
      dsimp only
      split_ifs <;> rfl
  · intro h
    subst h
    rfl
  · unfold submit_post_request
    rw [submit_post_request_from_transient_run env (fun _ => .transient)
      maxRetries 0 (fun _ _ => rfl)]
    rw [submit_post_request_from_transient_zero env (fun _ => .transient)
      (0 + maxRetries) rfl]
    simp [Nat.add_comm]

theorem job_operations_single_post_witness :
    (create_job (some "US") "csv" none none [] .transient
      = (.error .transientRaised, 1))
    ∧ (check_job_status .transient = (.error .transientRaised, 1))
    ∧ (download_job "csv" .transient = (.error .transientRaised, 1))
    ∧ ((submit_post_request (δ := Json) ⟨"tok", Json.null⟩
        (fun _ => .transient) 3).2 = 3 + 1) := by
  obtain ⟨_, h2, _, h4, _, h6, h7⟩ := job_operations_single_post
    (⟨"tok", Json.null⟩ : Envelope Json) (some "US") "csv" none none []
    .transient .transient .transient "csv" 3
  exact ⟨h2 rfl rfl, h4 rfl, h6 rfl, h7⟩
